import Mathlib

/-!
Verification development for the NodeBB groups controller
(`src/controllers/groups.js`): slug canonicalization, group visibility
evaluation, directory listing/search pagination, member-page fetching and
the details orchestration.  Collaborator stores (groups store, user store,
privileges) are modelled as records of fallible functions returning
`Except Err a`; the controller functions are shallow embeddings of the
JavaScript, sequentializing each `Promise.all` fan-out in source order.
JavaScript numbers used as page indices are modelled as `Int`
(`parseInt(x, 10)` yielding `NaN` is modelled as `none : Option Int`);
string truthiness (`''` and `null`/`undefined` are falsy) is modelled
explicitly.
-/

namespace NodeBB

/-- Collaborator failures (rejected promises); the payload is opaque. -/
abbrev Err := String

/-- Group records as returned by the group store (`groups.get`,
`groups.getGroupData`, sorted listings and search results). -/
structure GroupData where
  name : String
  displayName : String
  memberCount : Nat
  deriving Repr, DecidableEq

/-- Options object passed to `groups.get` at the details call site. -/
structure GetOpts where
  uid : Nat
  truncateUserList : Bool
  userListCount : Nat
  deriving Repr, DecidableEq

/-- The filter object built at the `groups.search` call site. -/
structure SearchFilters where
  sort : String
  filterHidden : Bool
  showMembers : Bool
  hideEphemeralGroups : Bool
  excludeGroups : List String
  deriving Repr, DecidableEq

/-- The groups-store collaborator: every call can fail (rejected promise). -/
structure GroupsStore where
  existsG : String → Except Err Bool
  isHidden : String → Except Err Bool
  isMember : Nat → String → Except Err Bool
  isInvited : Nat → String → Except Err Bool
  getGroupNameByGroupSlug : String → Except Err (Option String)
  getGroupData : String → Except Err GroupData
  get : String → GetOpts → Except Err (Option GroupData)
  getLatestMemberPosts : String → Nat → Nat → Except Err (List Nat)
  getGroupsBySort : String → Nat → Nat → Except Err (List GroupData)
  getGroupCountBySort : String → Except Err Nat
  search : String → SearchFilters → Except Err (List GroupData)

/-- The user-store collaborator. -/
structure UserStore where
  isAdministrator : Nat → Except Err Bool
  isGlobalModerator : Nat → Except Err Bool
  isAdminOrGlobalMod : Nat → Except Err Bool
  getUsersFromSet : String → Nat → Nat → Nat → Except Err (List Nat)

/-- The privileges collaborator (`privileges.admin.can`, `privileges.global.can`). -/
structure Privileges where
  adminCan : String → Nat → Except Err Bool
  globalCan : String → Nat → Except Err Bool

/-- Process-wide configuration (`nconf.get('url')`, `nconf.get('relative_path')`). -/
structure Config where
  url : String
  relativePath : String
  deriving Repr, DecidableEq

/-- The request query string fields the controller reads.  Raw query-string
values are strings (or absent); `excludeGroups` is `none` when the raw value
is not an array. -/
structure ReqQuery where
  query : Option String := none
  page : Option Int := none
  sort : Option String := none
  filterHidden : Option String := none
  showMembers : Option String := none
  hideEphemeralGroups : Option String := none
  excludeGroups : Option (List String) := none
  deriving Repr, DecidableEq

/-- The request: authenticated uid (0 for anonymous), route slug parameter,
query string. -/
structure Req where
  uid : Nat
  slug : String := ""
  query : ReqQuery := {}
  deriving Repr, DecidableEq

/-- JavaScript string truthiness for an optional query value: absent and
the empty string are falsy. -/
def truthyStr : Option String → Bool
  | some s => s != ""
  | none => false

/-- `parseInt(x, 10) || 1`: `none` models a `NaN` parse (absent or
non-numeric input) and falls back to 1, as does a parsed 0 (falsy). -/
def parsePageQuery : Option Int → Int
  | none => 1
  | some n => if n = 0 then 1 else n

/-- `x || d` for an optional string and a default. -/
def jsOrDefault : Option String → String → String
  | some s, d => if s = "" then d else s
  | none, d => d

/-- `Math.ceil(n / k)` for natural `n` and positive literal `k`. -/
def jsCeilDiv (n k : Nat) : Nat := (n + k - 1) / k

/-- `arr.slice(s, e)` for `0 ≤ s ≤ e` on a list. -/
def jsSlice (l : List GroupData) (s e : Nat) : List GroupData :=
  (l.drop s).take (e - s)

/-- `s.toLowerCase()` (ASCII model), mapping each character to lower case. -/
def jsToLowerCase (s : String) : String := String.mk (s.data.map Char.toLower)

/-- Outcome of `validateSlugAndRedirect`: either continue processing with a
(possibly substituted) slug, or stop after issuing a redirect. -/
inductive SlugStep where
  | proceed (slug : String)
  | redirect (location : String)
  deriving Repr, DecidableEq

/-- `validateSlugAndRedirect(req, res)`: lower-cases the slug route
parameter; if it changed, either substitutes it in place (API request) or
redirects to the lower-cased location; otherwise continues unchanged. -/
def validateSlugAndRedirect (cfg : Config) (slug : String) (isAPI : Bool) : SlugStep :=
  let lowercaseSlug := jsToLowerCase slug
  if slug ≠ lowercaseSlug then
    if isAPI then
      SlugStep.proceed lowercaseSlug
    else
      SlugStep.redirect (cfg.relativePath ++ "/groups/" ++ lowercaseSlug)
  else
    SlugStep.proceed slug

/-- Result of `validateGroupAccess`: the JavaScript returns
`{ hasAccess: false }` (role fields `undefined`, hence `Option`) or
`{ hasAccess: true, isAdmin, isGlobalMod }`. -/
structure AccessResult where
  hasAccess : Bool
  isAdmin : Option Bool
  isGlobalMod : Option Bool
  deriving Repr, DecidableEq

/-- `validateGroupAccess(req, groupName)`: fetches existence, hidden flag,
admin and global-moderator status (a `Promise.all`, sequentialized in source
order); a missing group denies access; a hidden group additionally requires
membership or an invitation unless the principal is admin or global mod. -/
def validateGroupAccess (G : GroupsStore) (P : Privileges) (U : UserStore)
    (uid : Nat) (groupName : String) : Except Err AccessResult :=
  (G.existsG groupName).bind fun ex =>
  (G.isHidden groupName).bind fun isHidden =>
  (P.adminCan ("admin:groups") uid).bind fun isAdmin =>
  (U.isGlobalModerator uid).bind fun isGlobalMod =>
  if !ex then
    Except.ok { hasAccess := false, isAdmin := none, isGlobalMod := none }
  else if isHidden && !isAdmin && !isGlobalMod then
    (G.isMember uid groupName).bind fun isMember =>
    (G.isInvited uid groupName).bind fun isInvited =>
    if !isMember && !isInvited then
      Except.ok { hasAccess := false, isAdmin := none, isGlobalMod := none }
    else
      Except.ok { hasAccess := true, isAdmin := some isAdmin, isGlobalMod := some isGlobalMod }
  else
    Except.ok { hasAccess := true, isAdmin := some isAdmin, isGlobalMod := some isGlobalMod }

/-- `Math.max(0, page - 1) * resultsPerPage` in `getGroups`. -/
def getGroupsStart (page : Int) (resultsPerPage : Nat) : Int :=
  max 0 (page - 1) * (resultsPerPage : Int)

/-- The `filterHidden` flag computed in search mode:
`req.query.filterHidden === 'true' || !await user.isAdministrator(req.uid)`
(the admin lookup is short-circuited away when the caller passed the literal
string `'true'`). -/
def computeFilterHidden (U : UserStore) (req : Req) : Except Err Bool :=
  if req.query.filterHidden == some ("true") then
    Except.ok true
  else
    (U.isAdministrator req.uid).bind fun isAdmin => Except.ok (!isAdmin)

/-- The filter object literal passed to `groups.search`. -/
def searchFilters (req : Req) (sort : String) (filterHidden : Bool) : SearchFilters :=
  { sort := sort
    filterHidden := filterHidden
    showMembers := req.query.showMembers == some ("true")
    hideEphemeralGroups := req.query.hideEphemeralGroups == some ("true")
    excludeGroups := req.query.excludeGroups.getD [] }

/-- `getGroups(req, sort, page)`: search mode (truthy `req.query.query`)
materializes the full search result and slices `[start, stop + 1)` with
`resultsPerPage = 100`; sorted-listing mode fetches the range
`[start, stop]` and the total count from the store with
`resultsPerPage = 15`.  Returns `[groupData, pageCount]`. -/
def getGroups (G : GroupsStore) (U : UserStore) (req : Req) (sort : String)
    (page : Int) : Except Err (List GroupData × Nat) :=
  let resultsPerPage : Nat := if truthyStr req.query.query then 100 else 15
  let start := getGroupsStart page resultsPerPage
  let stop := start + (resultsPerPage : Int) - 1
  if truthyStr req.query.query then
    (computeFilterHidden U req).bind fun filterHidden =>
    (G.search (req.query.query.getD ("")) (searchFilters req sort filterHidden)).bind
      fun groupData =>
    Except.ok
      (jsSlice groupData start.toNat (start.toNat + resultsPerPage),
       jsCeilDiv groupData.length resultsPerPage)
  else
    (G.getGroupsBySort sort start.toNat stop.toNat).bind fun groupData =>
    (G.getGroupCountBySort sort).bind fun groupCount =>
    Except.ok (groupData, jsCeilDiv groupCount resultsPerPage)

/-- The view model rendered by `groupsController.list`. -/
structure ListView where
  groups : List GroupData
  allowGroupCreation : Bool
  sort : String
  page : Int
  pageCount : Nat
  deriving Repr, DecidableEq

/-- The view model rendered by `renderGroupDetails` (fields the controller
computes; template-only baggage such as breadcrumbs is omitted). -/
structure DetailsView where
  canonical : String
  group : GroupData
  posts : List Nat
  isAdmin : Option Bool
  isGlobalMod : Option Bool
  deriving Repr, DecidableEq

/-- Outcome of `groupsController.details`: a redirect, a fall-through to the
404 handler (`next()` with no arguments), or a rendered view.  The
controller has no distinct forbidden outcome. -/
inductive DetailsOutcome where
  | redirect (location : String)
  | notFound
  | view (v : DetailsView)
  deriving Repr, DecidableEq

/-- The view model rendered by `groupsController.members`. -/
structure MembersView where
  users : List Nat
  page : Int
  pageCount : Nat
  deriving Repr, DecidableEq

/-- Outcome of `groupsController.members`. -/
inductive MembersOutcome where
  | notFound
  | view (v : MembersView)
  deriving Repr, DecidableEq

namespace groupsController

/-- `groupsController.list(req, res)`: resolves sort and page from the query
string, checks the group-creation privilege, delegates to `getGroups` and
renders the listing. -/
def list (G : GroupsStore) (P : Privileges) (U : UserStore) (req : Req) :
    Except Err ListView :=
  let sort := jsOrDefault req.query.sort ("alpha")
  let page := parsePageQuery req.query.page
  (P.globalCan ("group:create") req.uid).bind fun allowGroupCreation =>
  (getGroups G U req sort page).bind fun gp =>
  Except.ok
    { groups := gp.1, allowGroupCreation := allowGroupCreation,
      sort := sort, page := page, pageCount := gp.2 }

/-- `groupsController.details(req, res, next)`: slug canonicalization, slug
to group-name resolution (`null` and the empty string are both falsy),
access validation, concurrent detail and posts fetch, then render; every
failure path calls `next()` (modelled as `.notFound`). -/
def details (cfg : Config) (G : GroupsStore) (P : Privileges) (U : UserStore)
    (req : Req) (isAPI : Bool) : Except Err DetailsOutcome :=
  match validateSlugAndRedirect cfg req.slug isAPI with
  | SlugStep.redirect location => Except.ok (DetailsOutcome.redirect location)
  | SlugStep.proceed slug =>
    (G.getGroupNameByGroupSlug slug).bind fun groupNameOpt =>
    if groupNameOpt.getD ("") = "" then
      Except.ok DetailsOutcome.notFound
    else
      let groupName := groupNameOpt.getD ("")
      (validateGroupAccess G P U req.uid groupName).bind fun access =>
      if !access.hasAccess then
        Except.ok DetailsOutcome.notFound
      else
        (G.get groupName { uid := req.uid, truncateUserList := true, userListCount := 20 }).bind
          fun groupDataOpt =>
        (G.getLatestMemberPosts groupName 10 req.uid).bind fun posts =>
        match groupDataOpt with
        | none => Except.ok DetailsOutcome.notFound
        | some groupData =>
          Except.ok (DetailsOutcome.view
            { canonical := cfg.url ++ "/groups/" ++ jsToLowerCase slug
              group := groupData
              posts := posts
              isAdmin := access.isAdmin
              isGlobalMod := access.isGlobalMod })

/-- `Math.max(0, (page - 1) * usersPerPage)` in `groupsController.members`. -/
def membersStart (page : Int) : Int := max 0 ((page - 1) * 50)

/-- `groupsController.members(req, res, next)`: resolves the slug, fetches
group data, role and hidden flags (sequentialized `Promise.all`), gates
hidden groups on membership or admin/global-mod status (invitations are not
consulted), then fetches one page of 50 members and renders with
`pageCount = max(1, ceil(memberCount / 50))`. -/
def members (G : GroupsStore) (U : UserStore) (req : Req) :
    Except Err MembersOutcome :=
  let page := parsePageQuery req.query.page
  let start := (membersStart page).toNat
  let stop := start + 50 - 1
  (G.getGroupNameByGroupSlug req.slug).bind fun groupNameOpt =>
  if groupNameOpt.getD ("") = "" then
    Except.ok MembersOutcome.notFound
  else
    let groupName := groupNameOpt.getD ("")
    (G.getGroupData groupName).bind fun groupData =>
    (U.isAdminOrGlobalMod req.uid).bind fun isAdminOrGlobalMod =>
    (G.isMember req.uid groupName).bind fun isMember =>
    (G.isHidden groupName).bind fun isHidden =>
    if isHidden && !isMember && !isAdminOrGlobalMod then
      Except.ok MembersOutcome.notFound
    else
      (U.getUsersFromSet ("group:" ++ groupName ++ ":members") req.uid start stop).bind
        fun users =>
      Except.ok (MembersOutcome.view
        { users := users, page := page,
          pageCount := max 1 (jsCeilDiv groupData.memberCount 50) })

end groupsController

/-! Concrete collaborator instances used to exercise the theorems on
closed inputs. -/

/-- A sample hidden group with no members. -/
def wGroup : GroupData := { name := "staff", displayName := "Staff", memberCount := 0 }

/-- A store holding one hidden group `staff`; uid 7 is invited but not a
member. -/
def wStore : GroupsStore :=
  { existsG := fun _ => Except.ok true
    isHidden := fun _ => Except.ok true
    isMember := fun _ _ => Except.ok false
    isInvited := fun _ _ => Except.ok true
    getGroupNameByGroupSlug := fun _ => Except.ok (some ("staff"))
    getGroupData := fun _ => Except.ok wGroup
    get := fun _ _ => Except.ok (some wGroup)
    getLatestMemberPosts := fun _ _ _ => Except.ok [3]
    getGroupsBySort := fun _ _ _ => Except.ok [wGroup]
    getGroupCountBySort := fun _ => Except.ok 32
    search := fun _ _ => Except.ok [wGroup] }

/-- Like `wStore` but slug resolution fails with a store error. -/
def wStoreNameErr : GroupsStore :=
  { wStore with getGroupNameByGroupSlug := fun _ => Except.error ("boom") }

/-- A user store where uid 7 holds no elevated role. -/
def wUsers : UserStore :=
  { isAdministrator := fun _ => Except.ok false
    isGlobalModerator := fun _ => Except.ok false
    isAdminOrGlobalMod := fun _ => Except.ok false
    getUsersFromSet := fun _ _ _ _ => Except.ok [] }

/-- Privileges: no admin rights, group creation allowed. -/
def wPriv : Privileges :=
  { adminCan := fun _ _ => Except.ok false
    globalCan := fun _ _ => Except.ok true }

/-- Like `wPriv` but the global-privilege check fails with a store error. -/
def wPrivErr : Privileges :=
  { wPriv with globalCan := fun _ _ => Except.error ("boom") }

/-- Sample configuration. -/
def wConfig : Config := { url := "https://example.org", relativePath := "" }

/-- Sample request for the `staff` group from uid 7. -/
def wReq : Req := { uid := 7, slug := "staff", query := {} }

/-- Sample search request (`?query=mods`) from uid 7. -/
def wReqSearch : Req := { uid := 7, slug := "", query := { query := some ("mods") } }

/-- Like `wStore` but the group is not hidden. -/
def wStorePublic : GroupsStore := { wStore with isHidden := fun _ => Except.ok false }

/-- Like `wStore` but no group matches the slug. -/
def wStoreNoName : GroupsStore :=
  { wStore with getGroupNameByGroupSlug := fun _ => Except.ok none }

/-- Like `wStore` but the principal is not invited either. -/
def wStoreUninvited : GroupsStore := { wStore with isInvited := fun _ _ => Except.ok false }

/-- Like `wStore` but the group is not hidden and its detail record is
absent (deleted between slug resolution and fetch). -/
def wStoreNoDetail : GroupsStore :=
  { wStore with isHidden := fun _ => Except.ok false, get := fun _ _ => Except.ok none }

/-! Reduction lemmas for `Except.bind`, and the theorems. -/

@[simp] theorem bind_ok_law {α β : Type} (a : α) (f : α → Except Err β) :
    (Except.ok a : Except Err α).bind f = f a := rfl

@[simp] theorem bind_error_law {α β : Type} (e : Err) (f : α → Except Err β) :
    (Except.error e : Except Err α).bind f = Except.error e := rfl

/-- If the principal is not an administrator, the computed `filterHidden`
flag is `true` whatever the caller supplied. -/
theorem computeFilterHidden_of_not_admin (U : UserStore) (req : Req)
    (h : U.isAdministrator req.uid = Except.ok false) :
    computeFilterHidden U req = Except.ok true := by
  unfold computeFilterHidden
  split
  · rfl
  · rw [h]; rfl

/-- `filterHidden = false` is only computed for administrators. -/
theorem computeFilterHidden_false_implies_admin (U : UserStore) (req : Req)
    (h : computeFilterHidden U req = Except.ok false) :
    U.isAdministrator req.uid = Except.ok true := by
  unfold computeFilterHidden at h
  split at h
  · simp at h
  · cases hA : U.isAdministrator req.uid with
    | error e => rw [hA] at h; simp at h
    | ok a =>
      rw [hA] at h
      simp at h
      cases a
      · simp at h
      · rfl

/-- C4: slug canonicalization is idempotent on already-lower-case slugs
(continues with the original slug, never redirects); on a slug that
lower-casing changes, an API request continues with the lower-cased slug
substituted (never redirects) and a non-API request redirects to the
location built from the lower-cased slug. -/
theorem slug_canonicalization_cases (cfg : Config) (slug : String) :
    (∀ isAPI : Bool, jsToLowerCase slug = slug →
      validateSlugAndRedirect cfg slug isAPI = SlugStep.proceed slug) ∧
    (jsToLowerCase slug ≠ slug →
      validateSlugAndRedirect cfg slug true = SlugStep.proceed (jsToLowerCase slug)) ∧
    (jsToLowerCase slug ≠ slug →
      validateSlugAndRedirect cfg slug false =
        SlugStep.redirect (cfg.relativePath ++ "/groups/" ++ jsToLowerCase slug)) := by
  refine ⟨?_, ?_, ?_⟩
  · intro isAPI h
    simp [validateSlugAndRedirect, h]
  · intro h
    have h2 : slug ≠ jsToLowerCase slug := fun hh => h hh.symm
    simp [validateSlugAndRedirect, h2]
  · intro h
    have h2 : slug ≠ jsToLowerCase slug := fun hh => h hh.symm
    simp [validateSlugAndRedirect, h2]

/-- Closed instance of `slug_canonicalization_cases` at slug `Mods`. -/
theorem slug_canonicalization_cases_witness :
    validateSlugAndRedirect wConfig ("mods") false = SlugStep.proceed ("mods") ∧
    validateSlugAndRedirect wConfig ("Mods") true = SlugStep.proceed ("mods") ∧
    validateSlugAndRedirect wConfig ("Mods") false = SlugStep.redirect ("/groups/mods") := by
  refine ⟨?_, ?_, ?_⟩
  · exact (slug_canonicalization_cases wConfig ("mods")).1 false (by decide)
  · have h := (slug_canonicalization_cases wConfig ("Mods")).2.1 (by decide)
    simpa using h
  · have h := (slug_canonicalization_cases wConfig ("Mods")).2.2 (by decide)
    simpa [wConfig] using h

/-- C1: in search mode the `filterHidden` flag handed to the search
collaborator is `true` for every non-administrator principal regardless of
the caller-supplied value, and a computed `filterHidden = false` implies
the principal is an administrator; for a non-administrator the engine
invokes the search collaborator with `filterHidden := true` filters. -/
theorem search_filterHidden_forced_for_non_admin
    (G : GroupsStore) (U : UserStore) (req : Req) (sort : String) (page : Int) :
    (U.isAdministrator req.uid = Except.ok false →
      computeFilterHidden U req = Except.ok true) ∧
    (computeFilterHidden U req = Except.ok false →
      U.isAdministrator req.uid = Except.ok true) ∧
    (truthyStr req.query.query = true →
      U.isAdministrator req.uid = Except.ok false →
      (searchFilters req sort true).filterHidden = true ∧
      ∃ k, getGroups G U req sort page =
        (G.search (req.query.query.getD ("")) (searchFilters req sort true)).bind k) := by
  refine ⟨computeFilterHidden_of_not_admin U req,
          computeFilterHidden_false_implies_admin U req, ?_⟩
  intro hq hA
  refine ⟨rfl, ?_⟩
  refine ⟨fun groupData => Except.ok
    (jsSlice groupData ((getGroupsStart page 100).toNat)
      ((getGroupsStart page 100).toNat + 100), jsCeilDiv groupData.length 100), ?_⟩
  have hfh := computeFilterHidden_of_not_admin U req hA
  simp [getGroups, hq, hfh]

/-- Closed instance of `search_filterHidden_forced_for_non_admin`: uid 7 is
not an administrator, so the computed flag is `true`. -/
theorem search_filterHidden_forced_witness :
    computeFilterHidden wUsers wReqSearch = Except.ok true := by
  exact (search_filterHidden_forced_for_non_admin wStore wUsers wReqSearch ("alpha") 1).1 rfl

/-- C2: for an existing group, visibility is granted unconditionally when
the group is not hidden, and for a hidden group exactly when the principal
is an administrator, a global moderator, a member, or invited; a
non-existent group always denies access. -/
theorem visibility_evaluation
    (G : GroupsStore) (P : Privileges) (U : UserStore) (uid : Nat) (g : String)
    (ex hid adm gmod : Bool)
    (hE : G.existsG g = Except.ok ex)
    (hH : G.isHidden g = Except.ok hid)
    (hA : P.adminCan ("admin:groups") uid = Except.ok adm)
    (hM : U.isGlobalModerator uid = Except.ok gmod) :
    (ex = false → validateGroupAccess G P U uid g =
      Except.ok { hasAccess := false, isAdmin := none, isGlobalMod := none }) ∧
    (ex = true → hid = false → validateGroupAccess G P U uid g =
      Except.ok { hasAccess := true, isAdmin := some adm, isGlobalMod := some gmod }) ∧
    (ex = true → hid = true → ∀ mem inv : Bool,
      G.isMember uid g = Except.ok mem → G.isInvited uid g = Except.ok inv →
      (validateGroupAccess G P U uid g).map AccessResult.hasAccess =
        Except.ok (adm || gmod || mem || inv)) := by
  refine ⟨?_, ?_, ?_⟩
  · rintro rfl
    simp [validateGroupAccess, hE, hH, hA, hM]
  · rintro rfl rfl
    simp [validateGroupAccess, hE, hH, hA, hM]
  · rintro rfl rfl mem inv hMem hInv
    cases adm <;> cases gmod <;> cases mem <;> cases inv <;>
      simp [validateGroupAccess, hE, hH, hA, hM, hMem, hInv, Except.map]

/-- Closed instance of `visibility_evaluation`: hidden group, principal
only invited, access granted. -/
theorem visibility_evaluation_witness :
    (validateGroupAccess wStore wPriv wUsers 7 ("staff")).map AccessResult.hasAccess =
      Except.ok true := by
  have h := (visibility_evaluation wStore wPriv wUsers 7 ("staff")
    true true false false rfl rfl rfl rfl).2.2 rfl rfl false true rfl rfl
  simpa using h

/-- The inclusive stop index of sorted-listing mode, as a `Nat`. -/
theorem getGroupsStop15_toNat (page : Int) :
    (getGroupsStart page 15 + ((15 : Nat) : Int) - 1).toNat =
      (getGroupsStart page 15).toNat + 14 := by
  have h0 : 0 ≤ getGroupsStart page 15 := by unfold getGroupsStart; positivity
  omega

/-- C3: the details operation yields the one `notFound` outcome for an
unknown slug, for a hidden group the principal may not view, and for a
group whose detail record is absent after the slug resolved; every
successful result is a redirect, `notFound`, or a view — there is no
distinct forbidden outcome. -/
theorem details_not_found_indistinguishable
    (cfg : Config) (G : GroupsStore) (P : Privileges) (U : UserStore)
    (req : Req) (isAPI : Bool)
    (hslug : jsToLowerCase req.slug = req.slug) :
    (G.getGroupNameByGroupSlug req.slug = Except.ok none →
      groupsController.details cfg G P U req isAPI = Except.ok DetailsOutcome.notFound) ∧
    (∀ g : String, g ≠ "" →
      G.getGroupNameByGroupSlug req.slug = Except.ok (some g) →
      G.existsG g = Except.ok true → G.isHidden g = Except.ok true →
      P.adminCan ("admin:groups") req.uid = Except.ok false →
      U.isGlobalModerator req.uid = Except.ok false →
      G.isMember req.uid g = Except.ok false →
      G.isInvited req.uid g = Except.ok false →
      groupsController.details cfg G P U req isAPI = Except.ok DetailsOutcome.notFound) ∧
    (∀ (g : String) (adm gmod : Bool) (posts : List Nat), g ≠ "" →
      G.getGroupNameByGroupSlug req.slug = Except.ok (some g) →
      G.existsG g = Except.ok true → G.isHidden g = Except.ok false →
      P.adminCan ("admin:groups") req.uid = Except.ok adm →
      U.isGlobalModerator req.uid = Except.ok gmod →
      G.get g { uid := req.uid, truncateUserList := true, userListCount := 20 } =
        Except.ok none →
      G.getLatestMemberPosts g 10 req.uid = Except.ok posts →
      groupsController.details cfg G P U req isAPI = Except.ok DetailsOutcome.notFound) ∧
    (∀ o : DetailsOutcome,
      groupsController.details cfg G P U req isAPI = Except.ok o →
      o = DetailsOutcome.notFound ∨ (∃ loc, o = DetailsOutcome.redirect loc) ∨
      (∃ v, o = DetailsOutcome.view v)) := by
  have hstep : validateSlugAndRedirect cfg req.slug isAPI = SlugStep.proceed req.slug := by
    simp [validateSlugAndRedirect, hslug]
  refine ⟨?_, ?_, ?_, ?_⟩
  · intro hname
    simp [groupsController.details, hstep, hname]
  · intro g hg hname hE hH hA hM hMem hInv
    simp only [groupsController.details, hstep, hname, bind_ok_law, Option.getD_some]
    rw [if_neg hg]
    simp [validateGroupAccess, hE, hH, hA, hM, hMem, hInv]
  · intro g adm gmod posts hg hname hE hH hA hM hGet hPosts
    simp only [groupsController.details, hstep, hname, bind_ok_law, Option.getD_some]
    rw [if_neg hg]
    simp [validateGroupAccess, hE, hH, hA, hM, hGet, hPosts]
  · intro o _
    cases o with
    | redirect l => exact Or.inr (Or.inl ⟨l, rfl⟩)
    | notFound => exact Or.inl rfl
    | view v => exact Or.inr (Or.inr ⟨v, rfl⟩)

/-- Closed instances of `details_not_found_indistinguishable`: unknown
slug, hidden-unauthorized, and absent detail record all produce the same
`notFound` value. -/
theorem details_not_found_indistinguishable_witness :
    groupsController.details wConfig wStoreNoName wPriv wUsers wReq false =
      Except.ok DetailsOutcome.notFound ∧
    groupsController.details wConfig wStoreUninvited wPriv wUsers wReq false =
      Except.ok DetailsOutcome.notFound ∧
    groupsController.details wConfig wStoreNoDetail wPriv wUsers wReq false =
      Except.ok DetailsOutcome.notFound := by
  refine ⟨?_, ?_, ?_⟩
  · exact (details_not_found_indistinguishable wConfig wStoreNoName wPriv wUsers wReq
      false (by decide)).1 rfl
  · exact (details_not_found_indistinguishable wConfig wStoreUninvited wPriv wUsers wReq
      false (by decide)).2.1 ("staff") (by decide) rfl rfl rfl rfl rfl rfl rfl
  · exact (details_not_found_indistinguishable wConfig wStoreNoDetail wPriv wUsers wReq
      false (by decide)).2.2.1 ("staff") false false [3] (by decide) rfl rfl rfl rfl rfl rfl rfl

/-- C5: in search mode the returned items are exactly the in-memory slice
`[max(0, p - 1) * 100, max(0, p - 1) * 100 + 100)` of the full result
sequence and `pageCount = ceil(matchedCount / 100)`; a page number beyond
`pageCount` yields an empty sequence while `pageCount` is computed from the
full sequence length regardless. -/
theorem search_mode_pagination
    (G : GroupsStore) (U : UserStore) (req : Req) (sort : String) (page : Int)
    (fh : Bool) (seq : List GroupData)
    (hq : truthyStr req.query.query = true)
    (hfh : computeFilterHidden U req = Except.ok fh)
    (hs : G.search (req.query.query.getD ("")) (searchFilters req sort fh) =
      Except.ok seq) :
    getGroups G U req sort page =
      Except.ok ((seq.drop ((getGroupsStart page 100).toNat)).take 100,
        jsCeilDiv seq.length 100) ∧
    ((jsCeilDiv seq.length 100 : Int) < page →
      (seq.drop ((getGroupsStart page 100).toNat)).take 100 = []) := by
  constructor
  · simp only [getGroups, hq, reduceIte, hfh, bind_ok_law, hs, jsSlice]
    simp
  · intro hp
    have hlen : seq.length ≤ (getGroupsStart page 100).toNat := by
      unfold getGroupsStart jsCeilDiv at *
      have h2 : max 0 (page - 1) = page - 1 := by omega
      rw [h2]
      omega
    rw [List.drop_eq_nil_of_le hlen]
    rfl

/-- Closed instance of `search_mode_pagination`: one match, page 1 returns
it with `pageCount = 1`; page 2 is beyond `pageCount` and returns the empty
sequence. -/
theorem search_mode_pagination_witness :
    getGroups wStore wUsers wReqSearch ("alpha") 1 = Except.ok ([wGroup], 1) ∧
    getGroups wStore wUsers wReqSearch ("alpha") 2 = Except.ok ([], 1) := by
  constructor
  · have h := (search_mode_pagination wStore wUsers wReqSearch ("alpha") 1
      true [wGroup] rfl rfl rfl).1
    simpa [jsCeilDiv, getGroupsStart] using h
  · have h := search_mode_pagination wStore wUsers wReqSearch ("alpha") 2
      true [wGroup] rfl rfl rfl
    have h2 := h.2 (by decide)
    have h1 := h.1
    rw [h2] at h1
    simpa [jsCeilDiv] using h1

/-- C6: in sorted-listing mode the engine requests exactly the inclusive
range `[max(0, p - 1) * 15, max(0, p - 1) * 15 + 14]` from the store under
the sort key and returns `pageCount = ceil(totalCount / 15)`; in particular
`totalCount = 32` gives `pageCount = 3`. -/
theorem sorted_mode_pagination
    (G : GroupsStore) (U : UserStore) (req : Req) (sort : String) (page : Int)
    (items : List GroupData) (cnt : Nat)
    (hq : truthyStr req.query.query = false)
    (hr : G.getGroupsBySort sort ((getGroupsStart page 15).toNat)
            ((getGroupsStart page 15).toNat + 14) = Except.ok items)
    (hc : G.getGroupCountBySort sort = Except.ok cnt) :
    (∃ k, getGroups G U req sort page =
      (G.getGroupsBySort sort ((getGroupsStart page 15).toNat)
        ((getGroupsStart page 15).toNat + 14)).bind k) ∧
    getGroups G U req sort page = Except.ok (items, jsCeilDiv cnt 15) ∧
    jsCeilDiv 32 15 = 3 := by
  have hstop : (getGroupsStart page 15 + ((15 : Nat) : Int) - 1).toNat =
      (getGroupsStart page 15).toNat + 14 := by
    have h0 : 0 ≤ getGroupsStart page 15 := by unfold getGroupsStart; positivity
    omega
  refine ⟨?_, ?_, by decide⟩
  · refine ⟨fun groupData =>
      (G.getGroupCountBySort sort).bind fun groupCount =>
        Except.ok (groupData, jsCeilDiv groupCount 15), ?_⟩
    simp only [getGroups, hq, Bool.false_eq_true, reduceIte]
    rw [hstop]
  · simp only [getGroups, hq, Bool.false_eq_true, reduceIte]
    rw [hstop, hr, hc]
    rfl

/-- Closed instance of `sorted_mode_pagination`: plain listing with store
count 32 produces `pageCount = 3`. -/
theorem sorted_mode_pagination_witness :
    getGroups wStore wUsers wReq ("alpha") 1 = Except.ok ([wGroup], 3) := by
  have h := (sorted_mode_pagination wStore wUsers wReq ("alpha") 1
    [wGroup] 32 rfl rfl rfl).2.1
  simpa [jsCeilDiv] using h

/-- C7: the members operation renders with
`pageCount = max(1, ceil(memberCount / 50))`; an empty group gets
`pageCount = 1` and the page count is never 0. -/
theorem members_pageCount_floor
    (G : GroupsStore) (U : UserStore) (req : Req) (g : String) (gd : GroupData)
    (aog mem hid : Bool) (users : List Nat)
    (hg : g ≠ "")
    (hName : G.getGroupNameByGroupSlug req.slug = Except.ok (some g))
    (hGd : G.getGroupData g = Except.ok gd)
    (hAog : U.isAdminOrGlobalMod req.uid = Except.ok aog)
    (hMem : G.isMember req.uid g = Except.ok mem)
    (hHid : G.isHidden g = Except.ok hid)
    (hGate : (hid && !mem && !aog) = false)
    (hUsers : U.getUsersFromSet ("group:" ++ g ++ ":members") req.uid
        ((groupsController.membersStart (parsePageQuery req.query.page)).toNat)
        ((groupsController.membersStart (parsePageQuery req.query.page)).toNat + 50 - 1) =
        Except.ok users) :
    groupsController.members G U req =
      Except.ok (MembersOutcome.view
        { users := users, page := parsePageQuery req.query.page,
          pageCount := max 1 (jsCeilDiv gd.memberCount 50) }) ∧
    (gd.memberCount = 0 → max 1 (jsCeilDiv gd.memberCount 50) = 1) ∧
    0 < max 1 (jsCeilDiv gd.memberCount 50) := by
  refine ⟨?_, ?_, ?_⟩
  · simp only [groupsController.members, hName, bind_ok_law, Option.getD_some]
    rw [if_neg hg]
    simp only [hGd, hAog, hMem, hHid, bind_ok_law, hGate]
    rw [if_neg (by simp [hGate])]
    rw [hUsers]
    rfl
  · intro h0
    rw [h0]
    rfl
  · exact lt_max_of_lt_left Nat.zero_lt_one

/-- Closed instance of `members_pageCount_floor`: a public group with 0
members renders one page, `pageCount = 1`. -/
theorem members_pageCount_floor_witness :
    groupsController.members wStorePublic wUsers wReq =
      Except.ok (MembersOutcome.view { users := [], page := 1, pageCount := 1 }) := by
  have h := (members_pageCount_floor wStorePublic wUsers wReq ("staff") wGroup
    false false false [] (by decide) rfl rfl rfl rfl rfl rfl rfl).1
  simpa [jsCeilDiv, wGroup] using h

/-- C8: the members operation never consults the invitation relation — for
a hidden group, an invited non-member without elevated roles receives
`notFound` from members even though `validateGroupAccess` (used by details)
grants that same principal access. -/
theorem members_ignores_invitations
    (G : GroupsStore) (P : Privileges) (U : UserStore) (req : Req)
    (g : String) (gd : GroupData)
    (hg : g ≠ "")
    (hName : G.getGroupNameByGroupSlug req.slug = Except.ok (some g))
    (hGd : G.getGroupData g = Except.ok gd)
    (hAog : U.isAdminOrGlobalMod req.uid = Except.ok false)
    (hMem : G.isMember req.uid g = Except.ok false)
    (hHid : G.isHidden g = Except.ok true)
    (hInv : G.isInvited req.uid g = Except.ok true)
    (hEx : G.existsG g = Except.ok true)
    (hAdm : P.adminCan ("admin:groups") req.uid = Except.ok false)
    (hGm : U.isGlobalModerator req.uid = Except.ok false) :
    groupsController.members G U req = Except.ok MembersOutcome.notFound ∧
    validateGroupAccess G P U req.uid g =
      Except.ok { hasAccess := true, isAdmin := some false, isGlobalMod := some false } := by
  constructor
  · simp only [groupsController.members, hName, bind_ok_law, Option.getD_some]
    rw [if_neg hg]
    simp [hGd, hAog, hMem, hHid]
  · simp [validateGroupAccess, hEx, hHid, hAdm, hGm, hMem, hInv]

/-- Closed instance of `members_ignores_invitations` at the `staff` store:
uid 7 is invited, members says `notFound`, details-side access is granted. -/
theorem members_ignores_invitations_witness :
    groupsController.members wStore wUsers wReq = Except.ok MembersOutcome.notFound ∧
    validateGroupAccess wStore wPriv wUsers 7 ("staff") =
      Except.ok { hasAccess := true, isAdmin := some false, isGlobalMod := some false } := by
  have h := members_ignores_invitations wStore wPriv wUsers wReq ("staff") wGroup
    (by decide) rfl rfl rfl rfl rfl rfl rfl rfl rfl
  exact h

/-- C10: the start offsets computed by the list operation (both modes) and
the members operation are never negative, for every page-number input
including negative, zero and non-numeric (`none`) values. -/
theorem start_offset_never_negative (q : Option Int) (page : Int) (rpp : Nat) :
    0 ≤ getGroupsStart (parsePageQuery q) rpp ∧
    0 ≤ groupsController.membersStart (parsePageQuery q) ∧
    0 ≤ getGroupsStart page rpp ∧
    0 ≤ groupsController.membersStart page := by
  refine ⟨?_, ?_, ?_, ?_⟩ <;>
    first
      | (unfold getGroupsStart; positivity)
      | (unfold groupsController.membersStart; exact le_max_left 0 _)

/-- C9: every collaborator call site of the list, details and members
operations propagates a collaborator failure as the operation's failure —
no default verdict or result is substituted and no view-model is produced.
Each conjunct pins one call site: the calls sequenced before it succeed,
the named call fails with `e`, and the operation's result is exactly
`Except.error e`. -/
theorem collaborator_failure_propagation (e : Err) :
    (∀ (G : GroupsStore) (P : Privileges) (U : UserStore) (req : Req),
      P.globalCan ("group:create") req.uid = Except.error e →
      groupsController.list G P U req = Except.error e) ∧
    (∀ (G : GroupsStore) (P : Privileges) (U : UserStore) (req : Req) (b : Bool),
      truthyStr req.query.query = false →
      P.globalCan ("group:create") req.uid = Except.ok b →
      G.getGroupsBySort (jsOrDefault req.query.sort ("alpha"))
        ((getGroupsStart (parsePageQuery req.query.page) 15).toNat)
        ((getGroupsStart (parsePageQuery req.query.page) 15).toNat + 14) =
        Except.error e →
      groupsController.list G P U req = Except.error e) ∧
    (∀ (G : GroupsStore) (P : Privileges) (U : UserStore) (req : Req) (b : Bool)
        (items : List GroupData),
      truthyStr req.query.query = false →
      P.globalCan ("group:create") req.uid = Except.ok b →
      G.getGroupsBySort (jsOrDefault req.query.sort ("alpha"))
        ((getGroupsStart (parsePageQuery req.query.page) 15).toNat)
        ((getGroupsStart (parsePageQuery req.query.page) 15).toNat + 14) =
        Except.ok items →
      G.getGroupCountBySort (jsOrDefault req.query.sort ("alpha")) = Except.error e →
      groupsController.list G P U req = Except.error e) ∧
    (∀ (G : GroupsStore) (P : Privileges) (U : UserStore) (req : Req) (b : Bool),
      truthyStr req.query.query = true →
      (req.query.filterHidden == some ("true")) = false →
      P.globalCan ("group:create") req.uid = Except.ok b →
      U.isAdministrator req.uid = Except.error e →
      groupsController.list G P U req = Except.error e) ∧
    (∀ (G : GroupsStore) (P : Privileges) (U : UserStore) (req : Req) (b fh : Bool),
      truthyStr req.query.query = true →
      P.globalCan ("group:create") req.uid = Except.ok b →
      computeFilterHidden U req = Except.ok fh →
      G.search (req.query.query.getD (""))
        (searchFilters req (jsOrDefault req.query.sort ("alpha")) fh) =
        Except.error e →
      groupsController.list G P U req = Except.error e) ∧
    (∀ (cfg : Config) (G : GroupsStore) (P : Privileges) (U : UserStore) (req : Req)
        (isAPI : Bool),
      jsToLowerCase req.slug = req.slug →
      G.getGroupNameByGroupSlug req.slug = Except.error e →
      groupsController.details cfg G P U req isAPI = Except.error e) ∧
    (∀ (cfg : Config) (G : GroupsStore) (P : Privileges) (U : UserStore) (req : Req)
        (isAPI : Bool) (g : String),
      jsToLowerCase req.slug = req.slug → g ≠ "" →
      G.getGroupNameByGroupSlug req.slug = Except.ok (some g) →
      G.existsG g = Except.error e →
      groupsController.details cfg G P U req isAPI = Except.error e) ∧
    (∀ (cfg : Config) (G : GroupsStore) (P : Privileges) (U : UserStore) (req : Req)
        (isAPI : Bool) (g : String) (ex : Bool),
      jsToLowerCase req.slug = req.slug → g ≠ "" →
      G.getGroupNameByGroupSlug req.slug = Except.ok (some g) →
      G.existsG g = Except.ok ex →
      G.isHidden g = Except.error e →
      groupsController.details cfg G P U req isAPI = Except.error e) ∧
    (∀ (cfg : Config) (G : GroupsStore) (P : Privileges) (U : UserStore) (req : Req)
        (isAPI : Bool) (g : String) (ex hid : Bool),
      jsToLowerCase req.slug = req.slug → g ≠ "" →
      G.getGroupNameByGroupSlug req.slug = Except.ok (some g) →
      G.existsG g = Except.ok ex →
      G.isHidden g = Except.ok hid →
      P.adminCan ("admin:groups") req.uid = Except.error e →
      groupsController.details cfg G P U req isAPI = Except.error e) ∧
    (∀ (cfg : Config) (G : GroupsStore) (P : Privileges) (U : UserStore) (req : Req)
        (isAPI : Bool) (g : String) (ex hid adm : Bool),
      jsToLowerCase req.slug = req.slug → g ≠ "" →
      G.getGroupNameByGroupSlug req.slug = Except.ok (some g) →
      G.existsG g = Except.ok ex →
      G.isHidden g = Except.ok hid →
      P.adminCan ("admin:groups") req.uid = Except.ok adm →
      U.isGlobalModerator req.uid = Except.error e →
      groupsController.details cfg G P U req isAPI = Except.error e) ∧
    (∀ (cfg : Config) (G : GroupsStore) (P : Privileges) (U : UserStore) (req : Req)
        (isAPI : Bool) (g : String),
      jsToLowerCase req.slug = req.slug → g ≠ "" →
      G.getGroupNameByGroupSlug req.slug = Except.ok (some g) →
      G.existsG g = Except.ok true →
      G.isHidden g = Except.ok true →
      P.adminCan ("admin:groups") req.uid = Except.ok false →
      U.isGlobalModerator req.uid = Except.ok false →
      G.isMember req.uid g = Except.error e →
      groupsController.details cfg G P U req isAPI = Except.error e) ∧
    (∀ (cfg : Config) (G : GroupsStore) (P : Privileges) (U : UserStore) (req : Req)
        (isAPI : Bool) (g : String) (mem : Bool),
      jsToLowerCase req.slug = req.slug → g ≠ "" →
      G.getGroupNameByGroupSlug req.slug = Except.ok (some g) →
      G.existsG g = Except.ok true →
      G.isHidden g = Except.ok true →
      P.adminCan ("admin:groups") req.uid = Except.ok false →
      U.isGlobalModerator req.uid = Except.ok false →
      G.isMember req.uid g = Except.ok mem →
      G.isInvited req.uid g = Except.error e →
      groupsController.details cfg G P U req isAPI = Except.error e) ∧
    (∀ (cfg : Config) (G : GroupsStore) (P : Privileges) (U : UserStore) (req : Req)
        (isAPI : Bool) (g : String) (r : AccessResult),
      jsToLowerCase req.slug = req.slug → g ≠ "" →
      G.getGroupNameByGroupSlug req.slug = Except.ok (some g) →
      validateGroupAccess G P U req.uid g = Except.ok r →
      r.hasAccess = true →
      G.get g { uid := req.uid, truncateUserList := true, userListCount := 20 } =
        Except.error e →
      groupsController.details cfg G P U req isAPI = Except.error e) ∧
    (∀ (cfg : Config) (G : GroupsStore) (P : Privileges) (U : UserStore) (req : Req)
        (isAPI : Bool) (g : String) (r : AccessResult) (gdOpt : Option GroupData),
      jsToLowerCase req.slug = req.slug → g ≠ "" →
      G.getGroupNameByGroupSlug req.slug = Except.ok (some g) →
      validateGroupAccess G P U req.uid g = Except.ok r →
      r.hasAccess = true →
      G.get g { uid := req.uid, truncateUserList := true, userListCount := 20 } =
        Except.ok gdOpt →
      G.getLatestMemberPosts g 10 req.uid = Except.error e →
      groupsController.details cfg G P U req isAPI = Except.error e) ∧
    (∀ (G : GroupsStore) (U : UserStore) (req : Req),
      G.getGroupNameByGroupSlug req.slug = Except.error e →
      groupsController.members G U req = Except.error e) ∧
    (∀ (G : GroupsStore) (U : UserStore) (req : Req) (g : String),
      g ≠ "" →
      G.getGroupNameByGroupSlug req.slug = Except.ok (some g) →
      G.getGroupData g = Except.error e →
      groupsController.members G U req = Except.error e) ∧
    (∀ (G : GroupsStore) (U : UserStore) (req : Req) (g : String) (gd : GroupData),
      g ≠ "" →
      G.getGroupNameByGroupSlug req.slug = Except.ok (some g) →
      G.getGroupData g = Except.ok gd →
      U.isAdminOrGlobalMod req.uid = Except.error e →
      groupsController.members G U req = Except.error e) ∧
    (∀ (G : GroupsStore) (U : UserStore) (req : Req) (g : String) (gd : GroupData)
        (aog : Bool),
      g ≠ "" →
      G.getGroupNameByGroupSlug req.slug = Except.ok (some g) →
      G.getGroupData g = Except.ok gd →
      U.isAdminOrGlobalMod req.uid = Except.ok aog →
      G.isMember req.uid g = Except.error e →
      groupsController.members G U req = Except.error e) ∧
    (∀ (G : GroupsStore) (U : UserStore) (req : Req) (g : String) (gd : GroupData)
        (aog mem : Bool),
      g ≠ "" →
      G.getGroupNameByGroupSlug req.slug = Except.ok (some g) →
      G.getGroupData g = Except.ok gd →
      U.isAdminOrGlobalMod req.uid = Except.ok aog →
      G.isMember req.uid g = Except.ok mem →
      G.isHidden g = Except.error e →
      groupsController.members G U req = Except.error e) ∧
    (∀ (G : GroupsStore) (U : UserStore) (req : Req) (g : String) (gd : GroupData)
        (aog mem hid : Bool),
      g ≠ "" →
      G.getGroupNameByGroupSlug req.slug = Except.ok (some g) →
      G.getGroupData g = Except.ok gd →
      U.isAdminOrGlobalMod req.uid = Except.ok aog →
      G.isMember req.uid g = Except.ok mem →
      G.isHidden g = Except.ok hid →
      (hid && !mem && !aog) = false →
      U.getUsersFromSet ("group:" ++ g ++ ":members") req.uid
        ((groupsController.membersStart (parsePageQuery req.query.page)).toNat)
        ((groupsController.membersStart (parsePageQuery req.query.page)).toNat + 50 - 1) =
        Except.error e →
      groupsController.members G U req = Except.error e) := by
  refine ⟨?_, ?_, ?_, ?_, ?_, ?_, ?_, ?_, ?_, ?_, ?_, ?_, ?_, ?_, ?_, ?_, ?_, ?_, ?_, ?_⟩
  · intro G P U req h1
    simp [groupsController.list, h1]
  · intro G P U req b hq h1 h2
    simp only [groupsController.list, h1, bind_ok_law, getGroups, hq,
      Bool.false_eq_true, reduceIte]
    rw [getGroupsStop15_toNat, h2]
    rfl
  · intro G P U req b items hq h1 h2 h3
    simp only [groupsController.list, h1, bind_ok_law, getGroups, hq,
      Bool.false_eq_true, reduceIte]
    rw [getGroupsStop15_toNat, h2, h3]
    rfl
  · intro G P U req b hq hFH h1 h2
    simp only [groupsController.list, h1, bind_ok_law, getGroups, hq, reduceIte,
      computeFilterHidden, hFH, Bool.false_eq_true, h2, bind_error_law]
  · intro G P U req b fh hq h1 h2 h3
    simp only [groupsController.list, h1, bind_ok_law, getGroups, hq, reduceIte,
      h2, h3, bind_error_law]
  · intro cfg G P U req isAPI hslug h1
    have hstep : validateSlugAndRedirect cfg req.slug isAPI = SlugStep.proceed req.slug := by
      simp [validateSlugAndRedirect, hslug]
    simp [groupsController.details, hstep, h1]
  · intro cfg G P U req isAPI g hslug hg h1 h2
    have hstep : validateSlugAndRedirect cfg req.slug isAPI = SlugStep.proceed req.slug := by
      simp [validateSlugAndRedirect, hslug]
    simp only [groupsController.details, hstep, h1, bind_ok_law, Option.getD_some]
    rw [if_neg hg]
    simp [validateGroupAccess, h2]
  · intro cfg G P U req isAPI g ex hslug hg h1 h2 h3
    have hstep : validateSlugAndRedirect cfg req.slug isAPI = SlugStep.proceed req.slug := by
      simp [validateSlugAndRedirect, hslug]
    simp only [groupsController.details, hstep, h1, bind_ok_law, Option.getD_some]
    rw [if_neg hg]
    simp [validateGroupAccess, h2, h3]
  · intro cfg G P U req isAPI g ex hid hslug hg h1 h2 h3 h4
    have hstep : validateSlugAndRedirect cfg req.slug isAPI = SlugStep.proceed req.slug := by
      simp [validateSlugAndRedirect, hslug]
    simp only [groupsController.details, hstep, h1, bind_ok_law, Option.getD_some]
    rw [if_neg hg]
    simp [validateGroupAccess, h2, h3, h4]
  · intro cfg G P U req isAPI g ex hid adm hslug hg h1 h2 h3 h4 h5
    have hstep : validateSlugAndRedirect cfg req.slug isAPI = SlugStep.proceed req.slug := by
      simp [validateSlugAndRedirect, hslug]
    simp only [groupsController.details, hstep, h1, bind_ok_law, Option.getD_some]
    rw [if_neg hg]
    simp [validateGroupAccess, h2, h3, h4, h5]
  · intro cfg G P U req isAPI g hslug hg h1 h2 h3 h4 h5 h6
    have hstep : validateSlugAndRedirect cfg req.slug isAPI = SlugStep.proceed req.slug := by
      simp [validateSlugAndRedirect, hslug]
    simp only [groupsController.details, hstep, h1, bind_ok_law, Option.getD_some]
    rw [if_neg hg]
    simp [validateGroupAccess, h2, h3, h4, h5, h6]
  · intro cfg G P U req isAPI g mem hslug hg h1 h2 h3 h4 h5 h6 h7
    have hstep : validateSlugAndRedirect cfg req.slug isAPI = SlugStep.proceed req.slug := by
      simp [validateSlugAndRedirect, hslug]
    simp only [groupsController.details, hstep, h1, bind_ok_law, Option.getD_some]
    rw [if_neg hg]
    simp [validateGroupAccess, h2, h3, h4, h5, h6, h7]
  · intro cfg G P U req isAPI g r hslug hg h1 h2 h3 h4
    have hstep : validateSlugAndRedirect cfg req.slug isAPI = SlugStep.proceed req.slug := by
      simp [validateSlugAndRedirect, hslug]
    simp only [groupsController.details, hstep, h1, bind_ok_law, Option.getD_some]
    rw [if_neg hg]
    simp [h2, h3, h4]
  · intro cfg G P U req isAPI g r gdOpt hslug hg h1 h2 h3 h4 h5
    have hstep : validateSlugAndRedirect cfg req.slug isAPI = SlugStep.proceed req.slug := by
      simp [validateSlugAndRedirect, hslug]
    simp only [groupsController.details, hstep, h1, bind_ok_law, Option.getD_some]
    rw [if_neg hg]
    simp [h2, h3, h4, h5]
  · intro G U req h1
    simp [groupsController.members, h1]
  · intro G U req g hg h1 h2
    simp only [groupsController.members, h1, bind_ok_law, Option.getD_some]
    rw [if_neg hg]
    simp [h2]
  · intro G U req g gd hg h1 h2 h3
    simp only [groupsController.members, h1, bind_ok_law, Option.getD_some]
    rw [if_neg hg]
    simp [h2, h3]
  · intro G U req g gd aog hg h1 h2 h3 h4
    simp only [groupsController.members, h1, bind_ok_law, Option.getD_some]
    rw [if_neg hg]
    simp [h2, h3, h4]
  · intro G U req g gd aog mem hg h1 h2 h3 h4 h5
    simp only [groupsController.members, h1, bind_ok_law, Option.getD_some]
    rw [if_neg hg]
    simp [h2, h3, h4, h5]
  · intro G U req g gd aog mem hid hg h1 h2 h3 h4 h5 hGate h6
    simp only [groupsController.members, h1, bind_ok_law, Option.getD_some]
    rw [if_neg hg]
    simp only [h2, h3, h4, h5, bind_ok_law]
    rw [if_neg (by simp [hGate])]
    rw [h6]
    rfl

/-- Closed instances of `collaborator_failure_propagation`: a failing
privilege check fails the list operation and a failing slug resolution
fails the members operation, with the collaborator's error preserved. -/
theorem collaborator_failure_propagation_witness :
    groupsController.list wStore wPrivErr wUsers wReq = Except.error ("boom") ∧
    groupsController.members wStoreNameErr wUsers wReq = Except.error ("boom") := by
  have h := collaborator_failure_propagation ("boom")
  refine ⟨h.1 wStore wPrivErr wUsers wReq rfl, ?_⟩
  exact h.2.2.2.2.2.2.2.2.2.2.2.2.2.2.1 wStoreNameErr wUsers wReq rfl

end NodeBB
